import Mathlib

/-!
Shallow embedding of the uma_assistant continuous screen-capture pipeline
(`src/core/device/multithreaded_screen_capture.py`) and the automation base
state machine (`src/core/automation/base_automation.py`), together with
theorems settling the specification claims about them.

Conventions:
* Qt bitmaps (`QPixmap`) are modelled by their dimensions only; scaling is the
  integer arithmetic of Qt's `QSize::scaled` with `KeepAspectRatio`.
* Wall-clock times (`time.time()`) are rationals; configuration constants come
  from `src/config/settings.py`.
* The Python `queue.Queue` is a front-to-back list (`get` takes the head,
  `put` appends) with an explicit `maxsize`.
* One iteration of a background loop is one atomic step of a step function;
  the possible outcomes of the external device bridge are an explicit
  parameter of each step (an oracle), since the bridge itself is an external
  process.
-/

namespace UmaAssistant

/-! ## Configuration constants (src/config/settings.py) -/

/-- Embeds `ERROR_REPORT_COOLDOWN = 5` (seconds), settings.py line 46. -/
def ERROR_REPORT_COOLDOWN : ℚ := 5

/-- Embeds `SCREENSHOT_BUFFER_SIZE`-style queue bound: `Queue(maxsize=5)` in
`MultiThreadedScreenCapture.__init__` (line 416). -/
def FRAME_QUEUE_MAXSIZE : ℕ := 5

/-- The producer's eviction threshold: `while self.frame_queue.qsize() >= 3`
(line 117 of `ScreenCaptureProducer.run`). -/
def PRODUCER_KEEP_FRAMES : ℕ := 3

/-- Embeds `self.producer.wait(3000)` in `MultiThreadedScreenCapture.stop_capture`
(line 448): the bounded join timeout in milliseconds. -/
def PRODUCER_JOIN_TIMEOUT_MS : ℕ := 3000

/-! ## Bitmaps and Qt scaling -/

/-- A bitmap, modelled by its pixel dimensions. -/
structure QPixmap where
  width : ℕ
  height : ℕ
deriving Repr, DecidableEq

/-- Qt `QSize::scaled` with `Qt.AspectRatioMode.KeepAspectRatio`:
given original size `(wd, ht)` and target `(tw, th)`, compute
`rw = th * wd / ht` (integer division); if `rw ≤ tw` the result is
`(rw, th)`, otherwise `(tw, tw * ht / wd)`.  When a side of the original
is zero Qt returns the target unchanged. -/
def qsizeScaledKeepAspect (wd ht tw th : ℕ) : ℕ × ℕ :=
  if wd = 0 ∨ ht = 0 then (tw, th)
  else
    let rw := th * wd / ht
    if rw ≤ tw then (rw, th) else (tw, tw * ht / wd)

/-- Embeds `QPixmap.scaled(QSize(tw, th), KeepAspectRatio, mode)`: the transformation
mode affects pixel quality only, not dimensions. -/
def QPixmap.scaled (p : QPixmap) (tw th : ℕ) : QPixmap :=
  let s := qsizeScaledKeepAspect p.width p.height tw th
  ⟨s.1, s.2⟩

/-- A `QPixmap` is null iff both dimensions are zero. -/
def QPixmap.isNull (p : QPixmap) : Bool :=
  p.width = 0 && p.height = 0

/-! ## ScreenshotData (lines 24–34) -/

/-- The `ScreenshotData` dataclass as its fields stand after construction.
`scaled_pixmaps` is an association list from `"WxH"` keys to bitmaps; it is
kept as the `Option` the constructor argument has in Python (default `None`),
so that the `__post_init__` normalisation is visible in the model. -/
structure ScreenshotData where
  pixmap : QPixmap
  timestamp : ℚ
  resolution : ℕ × ℕ
  scaled_pixmaps : Option (List (String × QPixmap))
deriving Repr, DecidableEq

/-- Embeds `ScreenshotData.__post_init__`: `if self.scaled_pixmaps is None:
self.scaled_pixmaps = {}`. -/
def ScreenshotData.postInit (s : ScreenshotData) : ScreenshotData :=
  if s.scaled_pixmaps = none then { s with scaled_pixmaps := some [] } else s

/-- Constructing a `ScreenshotData(pixmap, timestamp, resolution,
scaled_pixmaps)`: the dataclass-generated init stores the arguments and then
runs `__post_init__`. -/
def mkScreenshotData (pixmap : QPixmap) (timestamp : ℚ) (resolution : ℕ × ℕ)
    (scaled_pixmaps : Option (List (String × QPixmap))) : ScreenshotData :=
  ScreenshotData.postInit ⟨pixmap, timestamp, resolution, scaled_pixmaps⟩

/-- Dictionary lookup `d[k]` / `k in d` on the association-list model. -/
def dictLookup (d : List (String × QPixmap)) (k : String) : Option QPixmap :=
  match d with
  | [] => none
  | (k0, v) :: rest => if k0 = k then some v else dictLookup rest k

/-! ## The frame queue and the producer's push routine -/

/-- Embeds `Queue.put(x, timeout=0.1)` on a queue with `maxsize`: succeeds (appends at
the back) when there is room, otherwise the put would block and, after the
0.1 s timeout, raise `Full`; `none` models that raise. -/
def queuePut (maxsize : ℕ) (q : List α) (x : α) : Option (List α) :=
  if q.length < maxsize then some (q ++ [x]) else none

/-- The eviction loop of `ScreenCaptureProducer.run` (lines 117–121):
`while self.frame_queue.qsize() >= 3: self.frame_queue.get_nowait()` —
drop entries from the front while at least `3` are held. -/
def evictWhileFull : List α → List α
  | [] => []
  | x :: rest =>
      if PRODUCER_KEEP_FRAMES ≤ rest.length + 1 then evictWhileFull rest
      else x :: rest

/-- The producer's whole push routine (lines 115–129): evict while the queue
holds ≥ 3 frames, then `put` with `maxsize = 5`; a failed queue operation is
swallowed by the bare `except: pass`, leaving the queue as it stood. -/
def tryPush (q : List α) (x : α) : List α :=
  match queuePut FRAME_QUEUE_MAXSIZE (evictWhileFull q) x with
  | some q2 => q2
  | none => evictWhileFull q

/-- Embeds `Queue.get_nowait()`: the oldest entry and the remaining queue, or
`none` when empty (the `Empty` exception). -/
def tryPop (q : List α) : Option (α × List α) :=
  match q with
  | [] => none
  | x :: rest => some (x, rest)

/-! ## The scaling cache (`_generate_scaled_versions`, lines 212–242) -/

/-- Embeds `self.common_sizes` from `ScreenCaptureProducer.__init__` (lines 72–77):
three preset sizes plus the fixed display size `target_display_size =
QSize(640, 640)`. -/
def common_sizes : List (ℕ × ℕ) :=
  [(300, 533), (450, 800), (600, 1067), (640, 640)]

/-- Embeds `_generate_scaled_versions(pixmap)`: for each common size, scale the
original with `KeepAspectRatio` and store it under the key
`"{width}x{height}"`. -/
def generateScaledVersions (pixmap : QPixmap) : List (String × QPixmap) :=
  common_sizes.map fun sz =>
    (toString sz.1 ++ "x" ++ toString sz.2, pixmap.scaled sz.1 sz.2)

/-! ## Capture producer (`ScreenCaptureProducer`, lines 37–272) -/

/-- Mutable state of a `ScreenCaptureProducer`, together with the frame queue
it pushes into and the list of `capture_error` events it has emitted
(each an emission time paired with the message). -/
structure ProducerState where
  running : Bool
  capture_interval : ℚ
  last_error_time : ℚ
  capture_count : ℕ
  error_count : ℕ
  queue : List ScreenshotData
  emitted_errors : List (ℚ × String)
deriving Repr, DecidableEq

/-- The field initialisation in `ScreenCaptureProducer.__init__`
(lines 59–65). -/
def initProducer : ProducerState :=
  { running := false
    capture_interval := 1
    last_error_time := 0
    capture_count := 0
    error_count := 0
    queue := []
    emitted_errors := [] }

/-- Embeds `set_capture_interval(interval)`: clamp to a minimum of 0.1 s. -/
def setCaptureInterval (s : ProducerState) (interval : ℚ) : ProducerState :=
  { s with capture_interval := max (1/10) interval }

/-- Embeds `start_capture()`: `if not self.running: self.running = True` (the QThread
start and status signal carry no further producer state). -/
def producerStartCapture (s : ProducerState) : ProducerState :=
  if s.running then s else { s with running := true }

/-- Embeds `ScreenCaptureProducer.stop_capture()`: `if self.running:
self.running = False`. -/
def producerStopCapture (s : ProducerState) : ProducerState :=
  if s.running then { s with running := false } else s

/-- Embeds `_emit_error_throttled(error_msg)` (lines 244–255), called at wall-clock
time `now`: forward the error and remember `now` only when strictly more than
`ERROR_REPORT_COOLDOWN` seconds passed since `last_error_time`. -/
def emitErrorThrottled (s : ProducerState) (now : ℚ) (msg : String) :
    ProducerState :=
  if ERROR_REPORT_COOLDOWN < now - s.last_error_time then
    { s with emitted_errors := s.emitted_errors ++ [(now, msg)]
             last_error_time := now }
  else s

/-- What a single pass through the body of `ScreenCaptureProducer.run` can
observe from the outside world:
* `captured frame` — `_capture_and_process` returned a `ScreenshotData`;
* `captureFailed msg` — one of the failure branches inside
  `_capture_and_process` ran (device not connected, empty data, decode
  failure, timeout, bridge missing, bridge command error, or any other
  exception caught by its own handlers): the error is reported through
  `_emit_error_throttled` and `None` is returned;
* `unexpectedError msg` — an exception reached the `except` clause of `run`
  itself. -/
inductive IterationEvent
  | captured (frame : ScreenshotData)
  | captureFailed (msg : String)
  | unexpectedError (msg : String)
deriving Repr, DecidableEq

/-- One iteration of the body of the `while self.running` loop in
`ScreenCaptureProducer.run` (lines 108–137), at wall-clock time `now`:
a captured frame is pushed through the eviction-then-put routine and the
capture counter incremented; a handled capture failure only goes through the
throttle; an unexpected exception increments the error counter (and is
logged). -/
def runIteration (s : ProducerState) (now : ℚ) (ev : IterationEvent) :
    ProducerState :=
  match ev with
  | .captured frame =>
      { s with queue := tryPush s.queue frame
               capture_count := s.capture_count + 1 }
  | .captureFailed msg => emitErrorThrottled s now msg
  | .unexpectedError _ => { s with error_count := s.error_count + 1 }

/-- How long the iteration sleeps before the loop condition is re-examined:
`time.sleep(self.capture_interval)` on the normal path (line 132), a fixed
`time.sleep(1.0)` backoff after an unexpected exception (line 137). -/
def iterationSleep (s : ProducerState) (ev : IterationEvent) : ℚ :=
  match ev with
  | .unexpectedError _ => 1
  | _ => s.capture_interval

/-- The `while self.running` loop of `run`, driven by a finite schedule of
timed iteration events: each event is consumed only while `running` holds;
once `running` is false the loop exits and the remaining schedule is never
observed. -/
def runLoop (s : ProducerState) : List (ℚ × IterationEvent) → ProducerState
  | [] => s
  | (t, ev) :: rest =>
      if s.running then runLoop (runIteration s t ev) rest else s

/-! ## Display consumer (`ScreenDisplayConsumer`, lines 275–392) -/

/-- Mutable state of a `ScreenDisplayConsumer`, together with the pixmaps it
has forwarded through `display_update`. -/
structure ConsumerState where
  current_display_size : ℕ × ℕ
  timer_active : Bool
  display_count : ℕ
  displayed : List QPixmap
deriving Repr, DecidableEq

/-- Embeds `ScreenDisplayConsumer.__init__` (lines 288–299): default display size
450×800, timer not started. -/
def initConsumer : ConsumerState :=
  { current_display_size := (450, 800)
    timer_active := false
    display_count := 0
    displayed := [] }

/-- Embeds `set_display_size(size)` (lines 301–309). -/
def setDisplaySize (c : ConsumerState) (size : ℕ × ℕ) : ConsumerState :=
  { c with current_display_size := size }

/-- Embeds `start_consuming(interval_ms)` / `stop_consuming()` toggle the tick
timer. -/
def startConsuming (c : ConsumerState) : ConsumerState :=
  { c with timer_active := true }

/-- Embeds `stop_consuming()` (lines 321–324). -/
def stopConsuming (c : ConsumerState) : ConsumerState :=
  { c with timer_active := false }

/-- Embeds `_get_display_pixmap(screenshot_data)` (lines 345–377): look up the
pre-scaled `"640x640"` variant; when absent, scale the original bitmap on
demand to fit 640×640 with `KeepAspectRatio`.  (`scaled_pixmaps` is the
normalised mapping; a `none` there would be the `None` dereference the
dataclass rules out.) -/
def getDisplayPixmap (sd : ScreenshotData) : Option QPixmap :=
  match sd.scaled_pixmaps with
  | none => none
  | some d =>
      match dictLookup d "640x640" with
      | some p => some p
      | none => some (sd.pixmap.scaled 640 640)

/-- Embeds `_consume_frame()` (lines 326–343), one timer tick: `get_nowait` once;
on `Empty` do nothing; otherwise forward the display pixmap when it exists
and is not null.  Returns the consumer state and the remaining queue. -/
def consumeFrame (c : ConsumerState) (q : List ScreenshotData) :
    ConsumerState × List ScreenshotData :=
  match tryPop q with
  | none => (c, q)
  | some (sd, rest) =>
      match getDisplayPixmap sd with
      | some p =>
          if p.isNull then (c, rest)
          else ({ c with displayed := c.displayed ++ [p]
                         display_count := c.display_count + 1 }, rest)
      | none => (c, rest)

/-! ## Pipeline controller (`MultiThreadedScreenCapture`, lines 395–593) -/

/-- The class-level signals declared on `MultiThreadedScreenCapture`
(lines 399–402).  `ScreenCaptureProducer`'s `capture_error` signal is *not*
among them. -/
def mtcSignals : List String :=
  ["image_ready", "screenshot_saved", "error_occurred", "status_changed"]

/-- Combined controller state: the producer it owns and the consumer it
owns (the shared queue lives inside the producer state). -/
structure MTCState where
  producer : ProducerState
  consumer : ConsumerState
deriving Repr, DecidableEq

/-- Embeds `MultiThreadedScreenCapture.stop_capture()` (lines 441–450): stop the
producer's loop flag, stop the consumer's tick timer, then wait on the
producer thread with the bounded 3000 ms timeout.  The applied join timeout
is returned alongside the new state. -/
def mtcStopCapture (s : MTCState) : MTCState × ℕ :=
  ({ producer := producerStopCapture s.producer
     consumer := stopConsuming s.consumer },
   PRODUCER_JOIN_TIMEOUT_MS)

/-! ## The synchronous screenshot path (`save_screenshot`, lines 477–521)

`_capture_screenshot_immediately` catches every exception it can raise and
returns `None` on all failure branches, so its result is an
`Option ScreenshotData`.  `pixmap.save(...)` can succeed, return `False`, or
raise; that outcome is the second oracle.  Attribute access on the
controller is modelled explicitly because the failure branches read
`self.capture_error`, which is not a declared signal of
`MultiThreadedScreenCapture`. -/

/-- A Python exception escaping to the caller. -/
inductive PyExn
  | attributeError (attr : String)
  | other (msg : String)
deriving Repr, DecidableEq

/-- Outcome of `screenshot_data.pixmap.save(filepath, format, quality)`. -/
inductive SaveOutcome
  | success
  | failed
  | raised (msg : String)
deriving Repr, DecidableEq

/-- Embeds `self.<name>.emit(...)`: evaluating the attribute raises
`AttributeError` when `name` is not a signal of the class. -/
def emitSignal (signals : List String) (name : String) : Except PyExn Unit :=
  if name ∈ signals then Except.ok () else Except.error (.attributeError name)

/-- The body of the second `try` block of `save_screenshot` (lines 498–515):
`screenshot_data.pixmap` raises `AttributeError` on `None`; a successful save
emits `screenshot_saved` and returns `True`; a save returning `False` logs and
then evaluates `self.capture_error` (line 514); a raising save propagates to
the handler. -/
def saveScreenshotTryBody (capture : Option ScreenshotData)
    (save : SaveOutcome) : Except PyExn Bool :=
  match capture with
  | none => Except.error (.attributeError "pixmap")
  | some _ =>
      match save with
      | .success => do
          emitSignal mtcSignals "screenshot_saved"
          pure true
      | .failed => do
          emitSignal mtcSignals "capture_error"
          pure false
      | .raised msg => Except.error (.other msg)

/-- Embeds `MultiThreadedScreenCapture.save_screenshot` (lines 477–521).  The first
`try` around `_capture_screenshot_immediately` never fires (that method
handles its own exceptions); the second `try`'s `except Exception` handler
(lines 517–521) logs and then evaluates `self.capture_error` (line 520), an
attribute the class does not have, so the handler itself raises. -/
def save_screenshot (capture : Option ScreenshotData) (save : SaveOutcome) :
    Except PyExn Bool :=
  match saveScreenshotTryBody capture save with
  | Except.ok b => Except.ok b
  | Except.error _ => do
      emitSignal mtcSignals "capture_error"
      pure false

/-! ## Automation base state machine (`base_automation.py`, lines 16–117) -/

/-- Embeds `AutomationState` enum. -/
inductive AutomationState
  | stopped
  | running
  | paused
  | error
deriving Repr, DecidableEq

/-- The `BaseAutomation` fields the lifecycle methods touch, plus a count of
`cleanup()` invocations. -/
structure BaseAutomation where
  state : AutomationState
  running : Bool
  paused : Bool
  cleanup_calls : ℕ
deriving Repr, DecidableEq

/-- Embeds `BaseAutomation.stop()` (lines 97–103): unconditionally clear the flags,
set the state to `STOPPED` and call `self.cleanup()` once. -/
def BaseAutomation.stop (a : BaseAutomation) : BaseAutomation :=
  { a with running := false
           paused := false
           state := .stopped
           cleanup_calls := a.cleanup_calls + 1 }

/-- Embeds `BaseAutomation.pause()` (lines 105–110): guarded by
`if self.state == AutomationState.RUNNING`. -/
def BaseAutomation.pause (a : BaseAutomation) : BaseAutomation :=
  if a.state = .running then { a with paused := true, state := .paused }
  else a

/-- Embeds `BaseAutomation.resume()` (lines 112–117): guarded by
`if self.state == AutomationState.PAUSED`. -/
def BaseAutomation.resume (a : BaseAutomation) : BaseAutomation :=
  if a.state = .paused then { a with paused := false, state := .running }
  else a

/-! ## General lemmas about the embedding -/

/-- No iteration of the producer loop body touches the `running` flag: the
flag is written only by `start_capture`/`stop_capture`. -/
theorem runIteration_preserves_running (s : ProducerState) (t : ℚ)
    (ev : IterationEvent) : (runIteration s t ev).running = s.running := by
  cases ev with
  | captured frame => rfl
  | captureFailed msg =>
      simp only [runIteration, emitErrorThrottled]
      split <;> rfl
  | unexpectedError msg => rfl

/-- Processing any schedule of iteration events leaves the `running` flag
where it was. -/
theorem runLoop_preserves_running (evs : List (ℚ × IterationEvent)) :
    ∀ s : ProducerState, (runLoop s evs).running = s.running := by
  induction evs with
  | nil => intro s; rfl
  | cons e rest ih =>
      intro s
      obtain ⟨t, ev⟩ := e
      show (if s.running then runLoop (runIteration s t ev) rest else s).running
        = s.running
      by_cases h : s.running
      · rw [if_pos h, ih, runIteration_preserves_running]
      · rw [if_neg h]

/-- A producer whose `running` flag is down never takes a step. -/
theorem runLoop_of_not_running (s : ProducerState) (h : s.running = false)
    (evs : List (ℚ × IterationEvent)) : runLoop s evs = s := by
  cases evs with
  | nil => rfl
  | cons e rest =>
      obtain ⟨t, ev⟩ := e
      show (if s.running then runLoop (runIteration s t ev) rest else s) = s
      rw [if_neg (by simp [h])]

/-- Below the eviction threshold the eviction loop is the identity. -/
theorem evictWhileFull_of_lt (q : List α) (h : q.length < PRODUCER_KEEP_FRAMES) :
    evictWhileFull q = q := by
  cases q with
  | nil => rfl
  | cons x rest =>
      have hc : ¬ PRODUCER_KEEP_FRAMES ≤ rest.length + 1 := by
        simp only [List.length_cons, PRODUCER_KEEP_FRAMES] at h ⊢
        omega
      simp only [evictWhileFull, if_neg hc]

/-- At exactly the eviction threshold the eviction loop removes the single
oldest entry. -/
theorem evictWhileFull_of_eq (q : List α) (h : q.length = PRODUCER_KEEP_FRAMES) :
    evictWhileFull q = q.tail := by
  cases q with
  | nil =>
      simp only [List.length_nil, PRODUCER_KEEP_FRAMES] at h
      exact absurd h (by decide)
  | cons x rest =>
      have hr : rest.length = 2 := by
        simp only [List.length_cons, PRODUCER_KEEP_FRAMES] at h
        omega
      have hc : PRODUCER_KEEP_FRAMES ≤ rest.length + 1 := by
        simp only [PRODUCER_KEEP_FRAMES]; omega
      simp only [evictWhileFull, if_pos hc, List.tail_cons]
      exact evictWhileFull_of_lt rest
        (by simp only [PRODUCER_KEEP_FRAMES]; omega)

/-- A push below the threshold appends without evicting. -/
theorem tryPush_of_lt (q : List α) (x : α) (h : q.length < PRODUCER_KEEP_FRAMES) :
    tryPush q x = q ++ [x] := by
  have he := evictWhileFull_of_lt q h
  have hroom : q.length < FRAME_QUEUE_MAXSIZE := by
    simp only [PRODUCER_KEEP_FRAMES] at h
    simp only [FRAME_QUEUE_MAXSIZE]
    omega
  simp only [tryPush, he, queuePut, if_pos hroom]

/-- A push at the threshold evicts exactly the oldest entry, then appends;
the `put` itself finds room and never blocks. -/
theorem tryPush_of_eq (q : List α) (x : α) (h : q.length = PRODUCER_KEEP_FRAMES) :
    tryPush q x = q.tail ++ [x] := by
  have he := evictWhileFull_of_eq q h
  have hlen : q.tail.length < FRAME_QUEUE_MAXSIZE := by
    have ht := List.length_tail q
    simp only [PRODUCER_KEEP_FRAMES] at h
    simp only [FRAME_QUEUE_MAXSIZE]
    omega
  simp only [tryPush, he, queuePut, if_pos hlen]

/-- From the empty channel, any push sequence retains exactly the most recent
`PRODUCER_KEEP_FRAMES` frames (all of them while fewer than that many were
pushed), in arrival order. -/
theorem foldl_tryPush_eq_drop (l : List α) :
    List.foldl tryPush ([] : List α) l = l.drop (l.length - PRODUCER_KEEP_FRAMES) := by
  induction l using List.reverseRecOn with
  | nil => rfl
  | append_singleton l x ih =>
      rw [List.foldl_append, List.foldl_cons, List.foldl_nil, ih]
      by_cases h : l.length < PRODUCER_KEEP_FRAMES
      · have hlt : (l.drop (l.length - PRODUCER_KEEP_FRAMES)).length
            < PRODUCER_KEEP_FRAMES := by
          simp only [List.length_drop, PRODUCER_KEEP_FRAMES] at h ⊢
          omega
        rw [tryPush_of_lt _ _ hlt]
        have h0 : l.length - PRODUCER_KEEP_FRAMES = 0 := by omega
        have h1 : (l ++ [x]).length - PRODUCER_KEEP_FRAMES = 0 := by
          simp only [List.length_append, List.length_cons, List.length_nil,
            PRODUCER_KEEP_FRAMES] at h ⊢
          omega
        rw [h0, h1, List.drop_zero, List.drop_zero]
      · push_neg at h
        have hdl : (l.drop (l.length - PRODUCER_KEEP_FRAMES)).length =
            PRODUCER_KEEP_FRAMES := by
          simp only [List.length_drop]; omega
        rw [tryPush_of_eq _ _ hdl]
        rw [← List.drop_one, List.drop_drop]
        have hle : l.length + 1 - PRODUCER_KEEP_FRAMES ≤ l.length := by
          simp only [PRODUCER_KEEP_FRAMES] at h ⊢
          omega
        have hlen2 : (l ++ [x]).length - PRODUCER_KEEP_FRAMES =
            l.length + 1 - PRODUCER_KEEP_FRAMES := by
          simp only [List.length_append, List.length_cons, List.length_nil]
        have harith : l.length - PRODUCER_KEEP_FRAMES + 1 =
            l.length + 1 - PRODUCER_KEEP_FRAMES := by
          simp only [PRODUCER_KEEP_FRAMES] at h ⊢
          omega
        rw [hlen2, List.drop_append_of_le_length hle, harith]

/-! ## Claim theorems -/

/-- C10: every `ScreenshotData` has a non-`None` scaled-variants mapping after
construction: with `scaled_pixmaps = None` (the default) `__post_init__`
normalises the field to the empty mapping, so every construction yields a
`some` mapping and the consumer's `"640x640"` lookup always produces a
pixmap rather than dereferencing `None`. -/
theorem screenshot_scaled_pixmaps_normalised (p : QPixmap) (t : ℚ)
    (r : ℕ × ℕ) (arg : Option (List (String × QPixmap))) :
    (mkScreenshotData p t r arg).scaled_pixmaps.isSome = true ∧
    (mkScreenshotData p t r none).scaled_pixmaps = some [] ∧
    (getDisplayPixmap (mkScreenshotData p t r arg)).isSome = true := by
  refine ⟨?_, rfl, ?_⟩
  · cases arg <;> simp [mkScreenshotData, ScreenshotData.postInit]
  · cases arg with
    | none =>
        simp [mkScreenshotData, ScreenshotData.postInit, getDisplayPixmap,
          dictLookup]
    | some d =>
        cases hd : dictLookup d "640x640" <;>
          simp [mkScreenshotData, ScreenshotData.postInit, getDisplayPixmap, hd]

/-- C8: in the automation base state machine, `pause()` changes the state only
from `Running` (to `Paused`) and is otherwise a no-op, `resume()` changes the
state only from `Paused` (to `Running`) and is otherwise a no-op, and `stop()`
always sets the state to `Stopped` and invokes `cleanup()` exactly once per
call. -/
theorem automation_pause_resume_stop (a : BaseAutomation) :
    (a.state = .running → a.pause = { a with paused := true, state := .paused }) ∧
    (a.state ≠ .running → a.pause = a) ∧
    (a.state = .paused → a.resume = { a with paused := false, state := .running }) ∧
    (a.state ≠ .paused → a.resume = a) ∧
    a.stop.state = .stopped ∧
    a.stop.cleanup_calls = a.cleanup_calls + 1 := by
  refine ⟨fun h => ?_, fun h => ?_, fun h => ?_, fun h => ?_, rfl, rfl⟩
  · simp [BaseAutomation.pause, h]
  · simp [BaseAutomation.pause, h]
  · simp [BaseAutomation.resume, h]
  · simp [BaseAutomation.resume, h]

/-- Witness for C8: a `Running` automation pauses to `Paused`, a `Paused` one
resumes to `Running`, and one `stop()` call performs exactly one cleanup. -/
theorem automation_pause_resume_stop_witness :
    (⟨.running, true, false, 0⟩ : BaseAutomation).pause =
      ⟨.paused, true, true, 0⟩ ∧
    (⟨.paused, true, true, 0⟩ : BaseAutomation).resume =
      ⟨.running, true, false, 0⟩ ∧
    (⟨.stopped, false, false, 0⟩ : BaseAutomation).pause =
      ⟨.stopped, false, false, 0⟩ ∧
    (⟨.running, true, false, 0⟩ : BaseAutomation).stop.cleanup_calls = 1 := by
  refine ⟨?_, ?_, ?_, ?_⟩
  · exact (automation_pause_resume_stop ⟨.running, true, false, 0⟩).1 rfl
  · exact (automation_pause_resume_stop ⟨.paused, true, true, 0⟩).2.2.1 rfl
  · exact (automation_pause_resume_stop ⟨.stopped, false, false, 0⟩).2.1
      (by decide)
  · exact (automation_pause_resume_stop ⟨.running, true, false, 0⟩).2.2.2.2.2

/-- C2: `stop_capture()` clears the producer's `running` flag and stops the
consumer's tick timer, using the bounded 3000 ms join on the producer thread;
with the flag down the producer loop takes no further step on any schedule of
iteration events, so the channel contents after `stop_capture()` returns are
exactly what they were when it returned — no frame is ever pushed again.
Loop iterations are modelled as atomic steps guarded by the `running` flag
(the flag is the loop condition of `ScreenCaptureProducer.run`). -/
theorem stop_capture_halts_pipeline (s : MTCState)
    (evs : List (ℚ × IterationEvent)) :
    (mtcStopCapture s).1.producer.running = false ∧
    (mtcStopCapture s).1.consumer.timer_active = false ∧
    (mtcStopCapture s).2 = PRODUCER_JOIN_TIMEOUT_MS ∧
    runLoop (mtcStopCapture s).1.producer evs = (mtcStopCapture s).1.producer ∧
    (runLoop (mtcStopCapture s).1.producer evs).queue = s.producer.queue := by
  have hrun : (producerStopCapture s.producer).running = false := by
    simp only [producerStopCapture]
    by_cases h : s.producer.running
    · rw [if_pos h]
    · rw [if_neg h]
      simpa using h
  have hq : (producerStopCapture s.producer).queue = s.producer.queue := by
    simp only [producerStopCapture]
    split <;> rfl
  have hloop := runLoop_of_not_running (producerStopCapture s.producer) hrun evs
  refine ⟨hrun, rfl, rfl, hloop, ?_⟩
  show (runLoop (producerStopCapture s.producer) evs).queue = s.producer.queue
  rw [hloop]
  exact hq

/-- C7 (code defect): the synchronous screenshot path does *not* keep every
failure local.  On each failure outcome — the immediate capture yielding no
frame, `pixmap.save` returning `False`, or an exception while saving — the
code reaches `self.capture_error.emit(...)` (`save_screenshot` lines 514 and
520), but `MultiThreadedScreenCapture` declares no `capture_error` signal, so
an `AttributeError` escapes to the caller instead of the one-way error event
the design prescribes. -/
theorem save_screenshot_raises_attribute_error :
    save_screenshot none .success =
      Except.error (PyExn.attributeError "capture_error") ∧
    save_screenshot (some (mkScreenshotData ⟨1080, 1920⟩ 0 (1080, 1920) none))
        .failed =
      Except.error (PyExn.attributeError "capture_error") ∧
    save_screenshot (some (mkScreenshotData ⟨1080, 1920⟩ 0 (1080, 1920) none))
        (.raised "disk full") =
      Except.error (PyExn.attributeError "capture_error") := by
  exact ⟨rfl, rfl, rfl⟩

/-- C1 counterexample: the claim's capacity "N between 3 and 5" fails for
N = 5 (and 4): the producer's push routine evicts down to the threshold 3
before inserting, so after six pushes into the empty channel only the 3 — not
5 — most recent frames remain. -/
theorem frame_channel_capacity_not_five :
    List.foldl tryPush ([] : List ℕ) [1, 2, 3, 4, 5, 6] = [4, 5, 6] ∧
    (List.foldl tryPush ([] : List ℕ) [1, 2, 3, 4, 5, 6]).length = 3 ∧
    List.foldl tryPush ([] : List ℕ) [1, 2, 3, 4, 5, 6] ≠ [2, 3, 4, 5, 6] := by
  decide

/-- C1 amended: the channel's effective capacity is exactly 3 (the producer's
eviction threshold; the underlying queue's `maxsize=5` is never reached).  For
every push sequence of length ≥ 3 from the empty channel the retained frames
are exactly the 3 most recently pushed, in arrival order, and the size is
exactly 3; a push onto a 3-frame channel evicts the single oldest entry and
then inserts; the `put` after eviction always finds room below `maxsize`, so
the producer never blocks. -/
theorem frame_channel_ring_buffer {α : Type} (l : List α) (q : List α) (x : α)
    (hl : PRODUCER_KEEP_FRAMES ≤ l.length)
    (hq : q.length = PRODUCER_KEEP_FRAMES) :
    List.foldl tryPush ([] : List α) l =
      l.drop (l.length - PRODUCER_KEEP_FRAMES) ∧
    (List.foldl tryPush ([] : List α) l).length = PRODUCER_KEEP_FRAMES ∧
    tryPush q x = q.tail ++ [x] ∧
    queuePut FRAME_QUEUE_MAXSIZE (evictWhileFull q) x = some (q.tail ++ [x]) := by
  refine ⟨foldl_tryPush_eq_drop l, ?_, tryPush_of_eq q x hq, ?_⟩
  · rw [foldl_tryPush_eq_drop l]
    simp only [List.length_drop]
    omega
  · rw [evictWhileFull_of_eq q hq]
    have hlen : q.tail.length < FRAME_QUEUE_MAXSIZE := by
      have ht := List.length_tail q
      simp only [PRODUCER_KEEP_FRAMES] at hq
      simp only [FRAME_QUEUE_MAXSIZE]
      omega
    simp only [queuePut, if_pos hlen]

/-- Witness for C1 (amended): four pushes retain the last three frames, and a
push onto a full channel evicts exactly the oldest entry. -/
theorem frame_channel_ring_buffer_witness :
    List.foldl tryPush ([] : List ℕ) [10, 20, 30, 40] = [20, 30, 40] ∧
    tryPush ([7, 8, 9] : List ℕ) 11 = [8, 9, 11] := by
  have h := frame_channel_ring_buffer [10, 20, 30, 40] [7, 8, 9] 11
    (by decide) (by decide)
  refine ⟨?_, ?_⟩
  · rw [h.1]
    decide
  · rw [h.2.2.1]
    decide

/-- The sample decoded frame used in concrete scenarios: a 1080×1920 capture
with its pre-scaled variants. -/
def sampleFrame : ScreenshotData :=
  mkScreenshotData ⟨1080, 1920⟩ 13 (1080, 1920)
    (some (generateScaledVersions ⟨1080, 1920⟩))

/-- Four producer iterations in which the device bridge fails three times
(all within one cooldown window) and then succeeds. -/
def failThriceScenario : List (ℚ × IterationEvent) :=
  [(10, .captureFailed "device not connected"),
   (11, .captureFailed "device not connected"),
   (12, .captureFailed "device not connected"),
   (13, .captured sampleFrame)]

/-- C3 counterexample: capture errors handled inside `_capture_and_process`
go through `_emit_error_throttled` but never touch `self.error_count`, so
after the fail-fail-fail-succeed scenario the error counter is 0, not 3
(the capture counter is 1 and exactly one error event was forwarded, as the
claim also says). -/
theorem error_counter_stays_zero_on_capture_failures :
    (runLoop (producerStartCapture initProducer) failThriceScenario).capture_count
      = 1 ∧
    (runLoop (producerStartCapture initProducer) failThriceScenario).error_count
      = 0 ∧
    (runLoop (producerStartCapture initProducer) failThriceScenario).error_count
      ≠ 3 ∧
    (runLoop (producerStartCapture initProducer) failThriceScenario).emitted_errors.length
      = 1 := by
  refine ⟨?_, ?_, ?_, ?_⟩ <;>
    norm_num [failThriceScenario, runLoop, runIteration, producerStartCapture,
      initProducer, emitErrorThrottled, ERROR_REPORT_COOLDOWN, tryPush,
      evictWhileFull, queuePut, FRAME_QUEUE_MAXSIZE, PRODUCER_KEEP_FRAMES]

/-- C3 amended: a handled capture failure is forwarded subject to throttling
but does not increment the internal error counter — that counter counts only
unexpected exceptions reaching `run`'s own handler.  In the scenario where the
bridge fails on the first 3 calls then succeeds, after 4 iterations the
capture counter is 1, the error counter is 0, and exactly one error event is
forwarded when all 3 failures fall within one cooldown window. -/
theorem capture_failures_throttled_not_counted (s : ProducerState) (t : ℚ)
    (msg : String) (frame : ScreenshotData) :
    (runIteration s t (.captureFailed msg)).error_count = s.error_count ∧
    (runIteration s t (.captureFailed msg)).capture_count = s.capture_count ∧
    (runIteration s t (.captured frame)).capture_count = s.capture_count + 1 ∧
    (runIteration s t (.unexpectedError msg)).error_count = s.error_count + 1 ∧
    (runLoop (producerStartCapture initProducer) failThriceScenario).capture_count
      = 1 ∧
    (runLoop (producerStartCapture initProducer) failThriceScenario).error_count
      = 0 ∧
    (runLoop (producerStartCapture initProducer) failThriceScenario).emitted_errors
      = [(10, "device not connected")] := by
  refine ⟨?_, ?_, rfl, rfl, ?_, ?_, ?_⟩
  · simp only [runIteration, emitErrorThrottled]
    split <;> rfl
  · simp only [runIteration, emitErrorThrottled]
    split <;> rfl
  all_goals
    norm_num [failThriceScenario, runLoop, runIteration, producerStartCapture,
      initProducer, emitErrorThrottled, ERROR_REPORT_COOLDOWN, tryPush,
      evictWhileFull, queuePut, FRAME_QUEUE_MAXSIZE, PRODUCER_KEEP_FRAMES]

/-- C4 counterexample: an error arriving when exactly `ERROR_REPORT_COOLDOWN`
seconds have elapsed since the last-error time satisfies "at least the
cooldown elapsed", yet the strict `>` comparison in `_emit_error_throttled`
suppresses it, so the claimed "if and only if at least" is false at the
boundary. -/
theorem throttle_at_exact_cooldown_not_forwarded :
    ERROR_REPORT_COOLDOWN ≤ (5 : ℚ) - initProducer.last_error_time ∧
    emitErrorThrottled initProducer 5 "err" = initProducer ∧
    (emitErrorThrottled initProducer 5 "err").emitted_errors = [] := by
  refine ⟨?_, ?_, ?_⟩ <;>
    norm_num [emitErrorThrottled, initProducer, ERROR_REPORT_COOLDOWN]

/-- C4 amended: an error is forwarded if and only if *strictly more than*
`ERROR_REPORT_COOLDOWN` seconds have elapsed since the last forwarded error
of any kind; the throttle state is one global `last_error_time` shared across
all error kinds (whether a message is forwarded never depends on the message),
and any two consecutively forwarded events are more than one cooldown
apart. -/
theorem throttle_strict_cooldown (s : ProducerState) (now now2 : ℚ)
    (m1 m2 : String) :
    ((emitErrorThrottled s now m1).emitted_errors ≠ s.emitted_errors ↔
      ERROR_REPORT_COOLDOWN < now - s.last_error_time) ∧
    ((emitErrorThrottled s now m1).emitted_errors ≠ s.emitted_errors ↔
      (emitErrorThrottled s now m2).emitted_errors ≠ s.emitted_errors) ∧
    ((emitErrorThrottled s now m1).emitted_errors ≠ s.emitted_errors →
      (emitErrorThrottled s now m1).last_error_time = now) ∧
    (((emitErrorThrottled s now m1).emitted_errors ≠ s.emitted_errors ∧
      (emitErrorThrottled (emitErrorThrottled s now m1) now2 m2).emitted_errors ≠
        (emitErrorThrottled s now m1).emitted_errors) →
      ERROR_REPORT_COOLDOWN < now2 - now) := by
  have key : ∀ (s0 : ProducerState) (t : ℚ) (m : String),
      (emitErrorThrottled s0 t m).emitted_errors ≠ s0.emitted_errors ↔
        ERROR_REPORT_COOLDOWN < t - s0.last_error_time := by
    intro s0 t m
    by_cases hc : ERROR_REPORT_COOLDOWN < t - s0.last_error_time
    · simp only [emitErrorThrottled, if_pos hc]
      refine ⟨fun _ => hc, fun _ heq => ?_⟩
      have hlen := congrArg List.length heq
      simp only [List.length_append, List.length_cons, List.length_nil] at hlen
      omega
    · simp only [emitErrorThrottled, if_neg hc]
      exact ⟨fun habs => absurd rfl habs, fun hcond => absurd hcond hc⟩
  refine ⟨key s now m1, ?_, ?_, ?_⟩
  · rw [key s now m1, key s now m2]
  · intro hf
    have hc := (key s now m1).mp hf
    simp only [emitErrorThrottled, if_pos hc]
  · rintro ⟨hf1, hf2⟩
    have hc1 := (key s now m1).mp hf1
    have h2 := (key _ now2 m2).mp hf2
    have hlast : (emitErrorThrottled s now m1).last_error_time = now := by
      simp only [emitErrorThrottled, if_pos hc1]
    rw [hlast] at h2
    exact h2

/-- Witness for C4 (amended): two errors forwarded at times 6 and 12 are more
than one cooldown apart. -/
theorem throttle_strict_cooldown_witness :
    ERROR_REPORT_COOLDOWN < (12 : ℚ) - 6 := by
  have h := throttle_strict_cooldown initProducer 6 12 "device not connected"
    "decode failed"
  refine h.2.2.2 ⟨?_, ?_⟩ <;>
    norm_num [emitErrorThrottled, initProducer, ERROR_REPORT_COOLDOWN]

/-- C6: no error terminates the producer's loop — only the `running` flag
(cleared by an explicit `stop`) does.  An unexpected exception in one
iteration is caught by `run`'s handler: the error counter is incremented, the
queue is untouched, the fixed 1-second backoff is slept, and the loop goes on
to process the rest of its schedule, still running; the exception never
escapes (the step function is total). -/
theorem producer_loop_self_healing (s : ProducerState) (t : ℚ) (msg : String)
    (rest : List (ℚ × IterationEvent)) (h : s.running = true) :
    (runIteration s t (.unexpectedError msg)).error_count = s.error_count + 1 ∧
    (runIteration s t (.unexpectedError msg)).running = true ∧
    (runIteration s t (.unexpectedError msg)).queue = s.queue ∧
    iterationSleep s (.unexpectedError msg) = 1 ∧
    runLoop s ((t, .unexpectedError msg) :: rest) =
      runLoop (runIteration s t (.unexpectedError msg)) rest ∧
    (runLoop s ((t, .unexpectedError msg) :: rest)).running = true := by
  refine ⟨rfl, ?_, rfl, rfl, ?_, ?_⟩
  · rw [runIteration_preserves_running]
    exact h
  · show (if s.running = true then
        runLoop (runIteration s t (.unexpectedError msg)) rest else s) =
      runLoop (runIteration s t (.unexpectedError msg)) rest
    rw [if_pos h]
  · rw [runLoop_preserves_running]
    exact h

/-- Witness for C6: one unexpected exception in a freshly started producer
bumps the error counter to 1 and leaves the loop running. -/
theorem producer_loop_self_healing_witness :
    (runIteration (producerStartCapture initProducer) 1
      (.unexpectedError "boom")).error_count = 1 ∧
    (runLoop (producerStartCapture initProducer)
      [(1, .unexpectedError "boom")]).running = true := by
  have h := producer_loop_self_healing (producerStartCapture initProducer) 1
    "boom" [] (by decide)
  exact ⟨h.1, h.2.2.2.2.2⟩

/-- A 300×533 pre-scaled variant distinct from the 640×640 one. -/
def variant300 : QPixmap := ⟨300, 533⟩

/-- The 640×640-target pre-scaled variant of a 1080×1920 frame. -/
def variant640 : QPixmap := ⟨360, 640⟩

/-- A frame carrying distinct pre-scaled variants under the `"300x533"` and
`"640x640"` keys. -/
def twoVariantFrame : ScreenshotData :=
  mkScreenshotData ⟨1080, 1920⟩ 50 (1080, 1920)
    (some [("300x533", variant300), ("640x640", variant640)])

/-- C5 counterexample: after `set_display_size(QSize(300, 533))` the next tick
still forwards the `"640x640"` variant — `_get_display_pixmap` uses the fixed
`target_key = "640x640"` and never consults `current_display_size`, so the
forwarded pixmap is not the variant matching the active display size. -/
theorem consumer_ignores_display_size :
    (setDisplaySize initConsumer (300, 533)).current_display_size = (300, 533) ∧
    (consumeFrame (setDisplaySize initConsumer (300, 533))
      [twoVariantFrame]).1.displayed = [variant640] ∧
    variant640 ≠ variant300 := by
  decide

/-- C5 amended: each tick pops at most one frame without blocking; an empty
channel is a silent no-op; when a frame is available the consumer forwards its
pre-scaled `"640x640"` variant — the fixed display target, regardless of the
size set via `set_display_size`, which only updates a stored field — falling
back to an on-demand keep-aspect scale of the original bitmap to 640×640 when
no such variant exists. -/
theorem consumer_tick_pops_fixed_variant (c : ConsumerState)
    (sd : ScreenshotData) (rest : List ScreenshotData)
    (q : List ScreenshotData) (size : ℕ × ℕ)
    (d : List (String × QPixmap)) (p : QPixmap) :
    consumeFrame c [] = (c, []) ∧
    (consumeFrame c (sd :: rest)).2 = rest ∧
    (consumeFrame c q).1.display_count ≤ c.display_count + 1 ∧
    (consumeFrame (setDisplaySize c size) q).1.displayed =
      (consumeFrame c q).1.displayed ∧
    (sd.scaled_pixmaps = some d → dictLookup d "640x640" = some p →
      getDisplayPixmap sd = some p) ∧
    (sd.scaled_pixmaps = some d → dictLookup d "640x640" = none →
      getDisplayPixmap sd = some (sd.pixmap.scaled 640 640)) := by
  refine ⟨rfl, ?_, ?_, ?_, ?_, ?_⟩
  · simp only [consumeFrame, tryPop]
    cases hg : getDisplayPixmap sd with
    | none => rfl
    | some p0 =>
        by_cases hn : p0.isNull <;> simp [hg, hn]
  · cases q with
    | nil => exact Nat.le_succ _
    | cons sd0 rest0 =>
        simp only [consumeFrame, tryPop]
        cases hg : getDisplayPixmap sd0 with
        | none => exact Nat.le_succ _
        | some p0 =>
            by_cases hn : p0.isNull <;> simp [hg, hn]
  · cases q with
    | nil => rfl
    | cons sd0 rest0 =>
        simp only [consumeFrame, tryPop, setDisplaySize]
        cases hg : getDisplayPixmap sd0 with
        | none => rfl
        | some p0 =>
            by_cases hn : p0.isNull <;> simp [hg, hn]
  · intro h1 h2
    simp [getDisplayPixmap, h1, h2]
  · intro h1 h2
    simp [getDisplayPixmap, h1, h2]

/-- Witness for C5 (amended): an empty channel tick is a no-op, and the
two-variant frame's lookup yields the `"640x640"` variant. -/
theorem consumer_tick_pops_fixed_variant_witness :
    consumeFrame initConsumer [] = (initConsumer, []) ∧
    getDisplayPixmap twoVariantFrame = some variant640 := by
  have h := consumer_tick_pops_fixed_variant initConsumer twoVariantFrame [] []
    (300, 533) [("300x533", variant300), ("640x640", variant640)] variant640
  exact ⟨h.1, h.2.2.2.2.1 (by decide) (by decide)⟩

/-- The scaling cache stores the keep-aspect fit of the original under the
`"640x640"` key, whatever the original's dimensions. -/
theorem dictLookup_generated_640 (p : QPixmap) :
    dictLookup (generateScaledVersions p) "640x640" =
      some (p.scaled 640 640) := by
  have h1 : (toString (300 : ℕ) ++ "x" ++ toString (533 : ℕ)) ≠ "640x640" := by
    decide
  have h2 : (toString (450 : ℕ) ++ "x" ++ toString (800 : ℕ)) ≠ "640x640" := by
    decide
  have h3 : (toString (600 : ℕ) ++ "x" ++ toString (1067 : ℕ)) ≠ "640x640" := by
    decide
  have h4 : (toString (640 : ℕ) ++ "x" ++ toString (640 : ℕ)) = "640x640" := by
    decide
  simp only [generateScaledVersions, common_sizes, List.map, dictLookup,
    if_neg h1, if_neg h2, if_neg h3, if_pos h4]

/-- C9 counterexample: a 100×50 frame's `"640x640"` variant is 640×320 —
`KeepAspectRatio` scaling also *enlarges* frames smaller than the target, so
the variant's width (640) exceeds the original's width (100) and the claimed
"width and height ≤ original dimensions" fails for every small frame. -/
theorem small_frame_variant_exceeds_original :
    dictLookup (generateScaledVersions ⟨100, 50⟩) "640x640" =
      some ⟨640, 320⟩ ∧
    ¬ ((640 : ℕ) ≤ 100) := by
  decide

/-- C9 amended: for every frame at least 640 pixels wide or tall (so that the
keep-aspect fit into the 640×640 target does not enlarge it), the `"640x640"`
pre-scaled variant has width ≤ original width and height ≤ original height,
fits inside the 640×640 box, and preserves the original aspect ratio within
one pixel of rounding: the variant's cross products `width·h` and `height·w`
differ by less than one pixel's worth (`max w h`, the divisor of the exact
ratio) in either direction. -/
theorem scaled_variant_round_trip (w h : ℕ) (hw : 0 < w) (hh : 0 < h)
    (hmax : 640 ≤ max w h) :
    dictLookup (generateScaledVersions ⟨w, h⟩) "640x640" =
      some (QPixmap.scaled ⟨w, h⟩ 640 640) ∧
    (QPixmap.scaled ⟨w, h⟩ 640 640).width ≤ w ∧
    (QPixmap.scaled ⟨w, h⟩ 640 640).height ≤ h ∧
    (QPixmap.scaled ⟨w, h⟩ 640 640).width ≤ 640 ∧
    (QPixmap.scaled ⟨w, h⟩ 640 640).height ≤ 640 ∧
    (QPixmap.scaled ⟨w, h⟩ 640 640).width * h <
      (QPixmap.scaled ⟨w, h⟩ 640 640).height * w + max w h ∧
    (QPixmap.scaled ⟨w, h⟩ 640 640).height * w <
      (QPixmap.scaled ⟨w, h⟩ 640 640).width * h + max w h := by
  refine ⟨dictLookup_generated_640 _, ?_⟩
  have hmaxpos : 0 < max w h := lt_of_lt_of_le (by norm_num) hmax
  have hne : ¬ (w = 0 ∨ h = 0) := by omega
  by_cases hbr : 640 * w / h ≤ 640
  · have hres : QPixmap.scaled ⟨w, h⟩ 640 640 = ⟨640 * w / h, 640⟩ := by
      simp only [QPixmap.scaled, qsizeScaledKeepAspect, if_neg hne]
      simp only [if_pos hbr]
    rw [hres]
    dsimp only
    have h640 : 640 ≤ h := by
      by_contra hlt
      push_neg at hlt
      have hw640 : 640 ≤ w := by
        rcases le_max_iff.mp hmax with hc | hc
        · exact hc
        · omega
      have hmul : 641 * h ≤ 640 * w := by nlinarith
      have h641 : 641 ≤ 640 * w / h := (Nat.le_div_iff_mul_le hh).mpr hmul
      omega
    have hwle : 640 * w / h ≤ w := by
      have hmm : 640 * w ≤ w * h := by nlinarith
      calc 640 * w / h ≤ w * h / h := Nat.div_le_div_right hmm
        _ = w := Nat.mul_div_cancel w hh
    have hdm := Nat.div_add_mod (640 * w) h
    have hmod := Nat.mod_lt (640 * w) hh
    have hle : 640 * w / h * h ≤ 640 * w := Nat.div_mul_le_self _ _
    have hhle : h ≤ max w h := le_max_right w h
    refine ⟨hwle, h640, hbr, le_refl _, ?_, ?_⟩
    · exact lt_of_le_of_lt hle (Nat.lt_add_of_pos_right hmaxpos)
    · nlinarith [hdm, hmod, hhle]
  · push_neg at hbr
    have hres : QPixmap.scaled ⟨w, h⟩ 640 640 = ⟨640, 640 * h / w⟩ := by
      simp only [QPixmap.scaled, qsizeScaledKeepAspect, if_neg hne]
      simp only [if_neg (by omega : ¬ 640 * w / h ≤ 640)]
    rw [hres]
    dsimp only
    have hmul : 641 * h ≤ 640 * w := by
      have h641 : 641 ≤ 640 * w / h := hbr
      exact (Nat.le_div_iff_mul_le hh).mp h641
    have hw640 : 640 ≤ w := by
      by_contra hlt
      push_neg at hlt
      have hh640 : 640 ≤ h := by
        rcases le_max_iff.mp hmax with hc | hc
        · omega
        · exact hc
      omega
    have hhle : 640 * h / w ≤ h := by
      have hmm : 640 * h ≤ h * w := by nlinarith
      calc 640 * h / w ≤ h * w / w := Nat.div_le_div_right hmm
        _ = h := Nat.mul_div_cancel h hw
    have h640le : 640 * h / w ≤ 640 := by
      have hmm : 640 * h ≤ 640 * w := by omega
      calc 640 * h / w ≤ 640 * w / w := Nat.div_le_div_right hmm
        _ = 640 := Nat.mul_div_cancel 640 hw
    have hdm := Nat.div_add_mod (640 * h) w
    have hmod := Nat.mod_lt (640 * h) hw
    have hle : 640 * h / w * w ≤ 640 * h := Nat.div_mul_le_self _ _
    have hwmax : w ≤ max w h := le_max_left w h
    refine ⟨hw640, hhle, le_refl _, h640le, ?_, ?_⟩
    · nlinarith [hdm, hmod, hwmax]
    · exact lt_of_le_of_lt hle (Nat.lt_add_of_pos_right hmaxpos)

/-- Witness for C9 (amended): a 1080×1920 frame's variant (360×640) is bounded
by the original and keeps its aspect ratio within a pixel. -/
theorem scaled_variant_round_trip_witness :
    (QPixmap.scaled ⟨1080, 1920⟩ 640 640).width ≤ 1080 ∧
    (QPixmap.scaled ⟨1080, 1920⟩ 640 640).height ≤ 1920 ∧
    (QPixmap.scaled ⟨1080, 1920⟩ 640 640).width * 1920 <
      (QPixmap.scaled ⟨1080, 1920⟩ 640 640).height * 1080 + max 1080 1920 := by
  have hthm := scaled_variant_round_trip 1080 1920 (by decide) (by decide)
    (by decide)
  exact ⟨hthm.2.1, hthm.2.2.1, hthm.2.2.2.2.2.1⟩

end UmaAssistant
